import Mathlib

/-!
Verification development for the zenoh-cpp session layer
(`src/include/zenoh/api/session.hxx`, `src/include/zenoh/api/publisher.hxx`).

The repository under verification is the C++ binding layer of zenoh: the
header files embed option structs, default values and the control flow of
the wrapper functions.  The messaging engine these wrappers call into
(key-expression matcher, registry, pub/sub router, query/reply engine,
liveliness tracker, session lifecycle) is provided by the `zenoh-c`
library whose sources are not part of the repository; those components
are modelled here from the specification, and each such definition is
marked `Modelled from the spec:` in its doc comment.
-/

namespace Zenoh

/-! ## Key expression matcher (spec 4.1) -/

/-- Modelled from the spec: a fragment of a key-expression token, either a
literal character or the `$*` fragment wildcard which matches any
(possibly empty) run of characters.  The matcher implementation lives in
zenoh-c, absent from src/. -/
inductive Frag where
  | flit (c : Char)
  | fstar
  deriving DecidableEq, Repr

/-- Modelled from the spec: one `/`-separated token of a key expression:
a fragment pattern (literal tokens are patterns of literal fragments),
the single-token wildcard `*`, the multi-token wildcard `**`, or an
explicit value set `\x7bv1,v2,...\x7d`. -/
inductive Chunk where
  | pat (fs : List Frag)
  | star
  | dstar
  | vset (vs : List String)
  deriving DecidableEq, Repr

/-- A key expression is a list of chunks. -/
abbrev KeyExprT := List Chunk

/-- Whether a chunk is the multi-token wildcard `**`. -/
def Chunk.isDStar : Chunk → Bool
  | .dstar => true
  | _ => false

/-- Whether a fragment is the `$*` wildcard. -/
def Frag.isFStar : Frag → Bool
  | .fstar => true
  | _ => false

/-- Modelled from the spec: generic intersection test for two wildcard
pattern sequences.  `isW` recognises the sequence wildcard (`**` at chunk
level, `$*` at fragment level), which may stand for zero elements (drop
it) or absorb one element of the other side; all other elements are
compared pointwise with `eInt`.  Structured on explicit fuel so that the
definition is computable by kernel reduction; a fuel of
`p.length + q.length + 1` is always sufficient since every recursive call
removes at least one element. -/
def interFuel (isW : α → Bool) (eInt : α → α → Bool) : Nat → List α → List α → Bool
  | 0, _, _ => false
  | _ + 1, [], [] => true
  | n + 1, [], y :: q => isW y && interFuel isW eInt n [] q
  | n + 1, x :: p, [] => isW x && interFuel isW eInt n p []
  | n + 1, x :: p, y :: q =>
    if isW x then
      interFuel isW eInt n p (y :: q) || interFuel isW eInt n (x :: p) q
    else if isW y then
      interFuel isW eInt n (x :: p) q || interFuel isW eInt n p (y :: q)
    else
      eInt x y && interFuel isW eInt n p q

/-- The generic intersection test is symmetric whenever the pointwise
element test is. -/
theorem interFuel_symm (isW : α → Bool) (eInt : α → α → Bool)
    (hsym : ∀ x y, eInt x y = eInt y x) :
    ∀ (n : Nat) (p q : List α), interFuel isW eInt n p q = interFuel isW eInt n q p := by
  intro n
  induction n with
  | zero => intro p q; rfl
  | succ n ih =>
    intro p q
    cases p with
    | nil =>
      cases q with
      | nil => rfl
      | cons y q => simp only [interFuel]; rw [ih [] q]
    | cons x p =>
      cases q with
      | nil => simp only [interFuel]; rw [ih p []]
      | cons y q =>
        by_cases hx : isW x = true
        · by_cases hy : isW y = true
          · simp only [interFuel, hx, hy, if_pos]
            rw [ih p (y :: q), ih (x :: p) q, Bool.or_comm]
          · simp only [interFuel, hx, hy, if_pos, if_neg, Bool.false_eq_true,
              not_false_iff, if_true, if_false]
            rw [ih p (y :: q), ih (x :: p) q, Bool.or_comm]
        · by_cases hy : isW y = true
          · simp only [interFuel, hx, hy, if_pos, if_neg, Bool.false_eq_true,
              not_false_iff, if_true, if_false]
            rw [ih p (y :: q), ih (x :: p) q, Bool.or_comm]
          · simp only [interFuel, hx, hy, if_neg, Bool.false_eq_true, not_false_iff, if_false]
            rw [ih p q, hsym x y]

/-- Modelled from the spec: fragment-level intersection of two `$*`-capable
token patterns: true iff some concrete token matches both. -/
def fragsInter (fs gs : List Frag) : Bool :=
  interFuel Frag.isFStar
    (fun a b => match a, b with
      | .flit c, .flit d => c == d
      | _, _ => false)
    (fs.length + gs.length + 1) fs gs

/-- Modelled from the spec: whether a fragment pattern matches a concrete
token value (a value is the pattern of its own literal characters, and
matching a concrete value coincides with intersecting with it). -/
def fragsMatch (fs : List Frag) (v : String) : Bool :=
  fragsInter fs (v.toList.map Frag.flit)

/-- Modelled from the spec: intersection of two single-token chunks
(`**` is handled at the key level and is unreachable here from the key
level matcher). -/
def chunkInter : Chunk → Chunk → Bool
  | .star, .star => true
  | .star, .pat _ => true
  | .pat _, .star => true
  | .star, .vset vs => !vs.isEmpty
  | .vset vs, .star => !vs.isEmpty
  | .pat fs, .pat gs => fragsInter fs gs
  | .pat fs, .vset vs => vs.any (fun v => fragsMatch fs v)
  | .vset vs, .pat fs => vs.any (fun v => fragsMatch fs v)
  | .vset vs, .vset ws => vs.any (fun v => ws.contains v)
  | .dstar, _ => true
  | _, .dstar => true

theorem fragsInter_symm (fs gs : List Frag) : fragsInter fs gs = fragsInter gs fs := by
  unfold fragsInter
  rw [Nat.add_comm fs.length gs.length]
  exact interFuel_symm _ _
    (fun x y => by
      cases x <;> cases y <;> simp [BEq.comm]) _ fs gs

theorem List.any_contains_comm (vs ws : List String) :
    vs.any (fun v => ws.contains v) = ws.any (fun w => vs.contains w) := by
  rw [Bool.eq_iff_iff]
  simp only [List.any_eq_true, List.contains, List.elem_iff]
  exact ⟨fun ⟨v, h1, h2⟩ => ⟨v, h2, h1⟩, fun ⟨w, h1, h2⟩ => ⟨w, h2, h1⟩⟩

theorem chunkInter_symm (c d : Chunk) : chunkInter c d = chunkInter d c := by
  cases c <;> cases d <;>
    simp only [chunkInter, fragsInter_symm, List.any_contains_comm]

/-- Modelled from the spec: intersection of two key expressions — true iff
some concrete key matches both.  `**` matches zero or more tokens, `*`
matches exactly one token, fragment patterns and value sets are compared
by `chunkInter`. -/
def keyExprIntersects (a b : KeyExprT) : Bool :=
  interFuel Chunk.isDStar chunkInter (a.length + b.length + 1) a b

/-- Modelled from the spec: well-formedness of a chunk (no empty fragment
pattern, no empty value set, no empty value). -/
def Chunk.wfChunk : Chunk → Bool
  | .pat fs => !fs.isEmpty
  | .vset vs => !vs.isEmpty && vs.all (fun v => v ≠ "")
  | _ => true

/-- Modelled from the spec: a valid key expression is non-empty and all of
its chunks are well-formed. -/
def keyExprWf (ks : KeyExprT) : Bool :=
  !ks.isEmpty && ks.all Chunk.wfChunk

/-! ## Key expression parsing and validation (spec 4.1) -/

/-- Splits a character list on a separator; a trailing separator yields a
trailing empty part, like the `/`-separated token grammar requires. -/
def splitOnChar (sep : Char) : List Char → List (List Char)
  | [] => [[]]
  | c :: cs =>
    match splitOnChar sep cs with
    | [] => [[]]
    | t :: ts => if c == sep then [] :: t :: ts else (c :: t) :: ts

/-- Modelled from the spec: parses the fragments of a token, where `$` is
only legal as the start of a `$*` fragment wildcard. -/
def parseFrags : List Char → Option (List Frag)
  | [] => some []
  | '$' :: '*' :: cs => (parseFrags cs).map (fun fs => Frag.fstar :: fs)
  | '$' :: _ => none
  | c :: cs =>
    if c == '*' || c == '/' || c == '\x7b' || c == '\x7d' then none
    else (parseFrags cs).map (fun fs => Frag.flit c :: fs)

/-- Modelled from the spec: parses one `/`-separated token: `*`, `**`, an
explicit value set `\x7bv1,v2,...\x7d`, or a fragment pattern; an empty
token is malformed. -/
def parseChunk (cs : List Char) : Option Chunk :=
  match cs with
  | [] => none
  | ['*'] => some Chunk.star
  | ['*', '*'] => some Chunk.dstar
  | '\x7b' :: rest =>
    match rest.getLast? with
    | some '\x7d' =>
      let parts := splitOnChar ',' rest.dropLast
      if parts.any List.isEmpty then none
      else some (Chunk.vset (parts.map (fun p => String.mk p)))
    | _ => none
  | _ => (parseFrags cs).map Chunk.pat

/-- Modelled from the spec: canonicalization collapses adjacent `**`
chunks into a single `**`. -/
def canonicalize : KeyExprT → KeyExprT
  | [] => []
  | Chunk.dstar :: Chunk.dstar :: ks => canonicalize (Chunk.dstar :: ks)
  | k :: ks => k :: canonicalize ks

/-- Modelled from the spec: validated construction of a key expression
from a string; `none` models failure with `KeyExprError`. -/
def parseKeyExpr (s : String) : Option KeyExprT :=
  if s.isEmpty then none
  else
    match (splitOnChar '/' s.toList).mapM parseChunk with
    | none => none
    | some ks => some (canonicalize ks)

/-! ## Error taxonomy (spec 7) and result reporting -/

/-- Modelled from the spec: the error taxonomy of the core (spec 7). -/
inductive ZErr where
  | keyExprErr
  | sessionClosedErr
  | transportErr
  | timeoutErr
  deriving DecidableEq, Repr

/-- Result code of a fallible operation: `ok` is `Z_OK`, `err e` a failure. -/
inductive ZResult where
  | ok
  | err (e : ZErr)
  deriving DecidableEq, Repr

/-- How the outcome of a fallible call is reported to the caller. -/
inductive Report where
  | errWritten (r : ZResult)
  | exceptionThrown (e : ZErr)
  | okNoReport
  deriving DecidableEq, Repr

/-- Modelled from the spec: the `__ZENOH_RESULT_CHECK` reporting discipline
(its macro body lives in `base.hxx`, absent from src/; every fallible
operation in `session.hxx` documents it as: "err if not null, the result
code will be written to this location, otherwise ZException exception
will be thrown in case of error"). -/
def resultCheck (res : ZResult) (errPtrProvided : Bool) : Report :=
  if errPtrProvided then
    Report.errWritten res
  else
    match res with
    | ZResult.ok => Report.okNoReport
    | ZResult.err e => Report.exceptionThrown e

/-! ## Registry of declared key expressions (spec 4.2) -/

/-- One entry of the registry: numeric id, expression, reference count. -/
structure RegEntry where
  id : Nat
  expr : KeyExprT
  rc : Nat
  deriving DecidableEq, Repr

/-- Modelled from the spec: the session registry mapping declared key
expressions to session-unique numeric ids, reference-counted
(`z_declare_keyexpr`/`z_undeclare_keyexpr` live in zenoh-c, absent from
src/). -/
structure Registry where
  next : Nat
  entries : List RegEntry
  deriving DecidableEq, Repr

def Registry.empty : Registry := { next := 0, entries := [] }

/-- Whether an identical expression is already declared. -/
def Registry.declared (r : Registry) (e : KeyExprT) : Bool :=
  r.entries.any (fun ent => ent.expr == e)

/-- Modelled from the spec: `declare(expr) -> id` assigns a session-unique
numeric id; if the identical expression was already declared it
increments its reference count and returns the existing id. -/
def Registry.declare (r : Registry) (e : KeyExprT) : Registry × Nat :=
  match r.entries.find? (fun ent => ent.expr == e) with
  | some ent =>
    ({ r with entries := (r.entries.map
        (fun x => if x.expr == e then { x with rc := x.rc + 1 } else x)) }, ent.id)
  | none =>
    ({ next := r.next + 1, entries := { id := r.next, expr := e, rc := 1 } :: r.entries }, r.next)

/-- Modelled from the spec: the per-entry effect of `undeclare(id)` —
decrement the reference count of the entry holding `id`, removing it
when the count reaches zero; other entries are untouched. -/
def undeclareStep (i : Nat) (ent : RegEntry) : Option RegEntry :=
  if ent.id == i then
    (if ent.rc ≤ 1 then none else some { ent with rc := ent.rc - 1 })
  else some ent

/-- Modelled from the spec: `undeclare(id)` decrements the reference
count; at zero it removes the mapping. -/
def Registry.undeclare (r : Registry) (i : Nat) : Registry :=
  { r with entries := r.entries.filterMap (undeclareStep i) }

/-- The id-to-expression mapping currently held by the registry. -/
def Registry.lookup (r : Registry) (i : Nat) : Option KeyExprT :=
  (r.entries.find? (fun ent => ent.id == i)).map (fun ent => ent.expr)

/-- Registry invariant: every live id was allocated below the counter. -/
def Registry.inv (r : Registry) : Bool :=
  r.entries.all (fun ent => ent.id < r.next)

/-! ## Session lifecycle, pub/sub router, query dispatch (spec 4.3, 4.4, 4.6) -/

/-- Modelled from the spec: session lifecycle states. -/
inductive SessionStatus where
  | opening
  | opened
  | closing
  | closed
  deriving DecidableEq, Repr

/-- A declared entity bound to a key expression (subscriber/queryable). -/
structure SubEntry where
  id : Nat
  keyexpr : KeyExprT
  deriving DecidableEq, Repr

/-- Modelled from the spec: the session owns the registry, the
subscription table and the queryable table, and a lifecycle status. -/
structure SessionModel where
  status : SessionStatus
  subs : List SubEntry
  queryables : List SubEntry
  registry : Registry
  deriving Repr

/-- A freshly opened session. -/
def SessionModel.openDefault : SessionModel :=
  { status := SessionStatus.opened, subs := [], queryables := [], registry := Registry.empty }

/-- Source `Session::is_closed` forwards to `z_session_is_closed`;
modelled from the spec: a pure query of current state. -/
def SessionModel.is_closed (s : SessionModel) : Bool :=
  s.status == SessionStatus.closed

/-- Modelled from the spec: `close()` undeclares every still-live
subscriber/queryable (firing their drop callbacks, returned as the list
of dropped entity ids) and transitions to Closed. -/
def SessionModel.close (s : SessionModel) : SessionModel × List Nat :=
  ({ status := SessionStatus.closed, subs := [], queryables := [], registry := s.registry },
   s.subs.map (fun sub => sub.id) ++ s.queryables.map (fun q => q.id))

/-- Modelled from the spec: `declare_subscriber` requires the Open state
(fails with `SessionClosedError` otherwise), validates the key
expression, and appends the subscriber to the subscription table. -/
def SessionModel.declare_subscriber (s : SessionModel) (i : Nat) (key : String) :
    Except ZErr SessionModel :=
  if s.status != SessionStatus.opened then Except.error ZErr.sessionClosedErr
  else
    match parseKeyExpr key with
    | none => Except.error ZErr.keyExprErr
    | some k => Except.ok { s with subs := s.subs ++ [{ id := i, keyexpr := k }] }

/-- Modelled from the spec: `declare_queryable` requires the Open state
and appends the queryable to the queryable table. -/
def SessionModel.declare_queryable (s : SessionModel) (i : Nat) (key : String) :
    Except ZErr SessionModel :=
  if s.status != SessionStatus.opened then Except.error ZErr.sessionClosedErr
  else
    match parseKeyExpr key with
    | none => Except.error ZErr.keyExprErr
    | some k => Except.ok { s with queryables := s.queryables ++ [{ id := i, keyexpr := k }] }

/-- Modelled from the spec: the pub/sub router delivers a sample for key
`k` to every subscriber whose key expression intersects `k`, in table
order; returns the notified subscriber ids. -/
def routePut (subs : List SubEntry) (k : KeyExprT) : List Nat :=
  (subs.filter (fun sub => keyExprIntersects sub.keyexpr k)).map (fun sub => sub.id)

/-- Modelled from the spec: `put(key, payload)` validates the key, then
fans the sample out to every intersecting subscriber; the payload is
opaque to routing. -/
def SessionModel.put (s : SessionModel) (key : String) (payload : String) :
    Except ZErr (List Nat) :=
  if s.status != SessionStatus.opened then Except.error ZErr.sessionClosedErr
  else
    match parseKeyExpr key with
    | none => Except.error ZErr.keyExprErr
    | some k =>
      let _ := payload
      Except.ok (routePut s.subs k)

/-- Modelled from the spec: the query engine dispatches a query to every
queryable whose key expression intersects the query key. -/
def routeGet (qs : List SubEntry) (k : KeyExprT) : List Nat :=
  (qs.filter (fun q => keyExprIntersects q.keyexpr k)).map (fun q => q.id)

/-- Modelled from the spec: `get` validates the key and dispatches to the
matching queryables; zero matching queryables is success with an empty
result set, not an error. -/
def SessionModel.get (s : SessionModel) (key : String) : Except ZErr (List Nat) :=
  if s.status != SessionStatus.opened then Except.error ZErr.sessionClosedErr
  else
    match parseKeyExpr key with
    | none => Except.error ZErr.keyExprErr
    | some k => Except.ok (routeGet s.queryables k)

/-! ## Callback-with-drop closure runtime (spec 9, design note 1) -/

/-- A callback invocation observable by the entity owner. -/
inductive CbEvent where
  | onEvent
  | onClose
  deriving DecidableEq, Repr

/-- A command processed by the closure runtime: deliver one item, or
destroy the entity (undeclare / owner destruction). -/
inductive ClosureCmd where
  | deliver
  | destroy
  deriving DecidableEq, Repr

/-- Lifecycle state of a closure. -/
inductive CState where
  | live
  | dropped
  deriving DecidableEq, Repr

/-- Modelled from the spec: the closure runtime (implemented by
`detail/closures_concrete.hxx`, absent from src/) invokes the event
callback for each delivered item while live, fires the drop callback
exactly once on destruction, and never invokes any callback after the
drop callback has fired. -/
def runClosure : List ClosureCmd → CState → List CbEvent
  | [], _ => []
  | ClosureCmd.deliver :: cs, CState.live => CbEvent.onEvent :: runClosure cs CState.live
  | ClosureCmd.deliver :: cs, CState.dropped => runClosure cs CState.dropped
  | ClosureCmd.destroy :: cs, CState.live => CbEvent.onClose :: runClosure cs CState.dropped
  | ClosureCmd.destroy :: cs, CState.dropped => runClosure cs CState.dropped

/-! ## Query/reply engine timeout machinery (spec 4.4) -/

/-- Modelled from the spec: the effective query deadline; the value 0
means the session's default query timeout from the configuration. -/
def effectiveTimeout (timeout_ms : Nat) (sessionDefault : Nat) : Nat :=
  if timeout_ms == 0 then sessionDefault else timeout_ms

/-- Outcome of one query run: reply arrival times accepted before the
query ended, and the time at which the terminal drop signal fired. -/
structure QueryOutcome where
  delivered : List Nat
  dropTime : Nat
  deriving DecidableEq, Repr

/-- Modelled from the spec: the engine aggregates replies until all
queryables completed (`completionTime`) or the deadline expired,
whichever comes first; on expiry it stops waiting and fires the terminal
drop signal even when queryables are still outstanding
(`completionTime = none`). -/
def runQuery (deadline : Nat) (replyTimes : List Nat) (completionTime : Option Nat) :
    QueryOutcome :=
  let finish :=
    match completionTime with
    | some c => min c deadline
    | none => deadline
  { delivered := replyTimes.filter (fun t => t < finish), dropTime := finish }

/-! ## Option structs of `Session::get` and `Session::liveliness_get`
(embedded from `src/include/zenoh/api/session.hxx`) -/

/-- Query target, from `enums.hxx` (`Z_QUERY_TARGET_*`). -/
inductive QueryTarget where
  | bestMatching
  | all
  | allComplete
  deriving DecidableEq, Repr

/-- Reply consolidation mode (spec 4.4). -/
inductive ConsolidationMode where
  | auto
  | noneMode
  | monotonic
  | latest
  deriving DecidableEq, Repr

/-- Message priority (`Z_PRIORITY_*`); the default is `Z_PRIORITY_DEFAULT`. -/
inductive Priority where
  | realTime
  | interactiveHigh
  | interactiveLow
  | dataHigh
  | data
  | dataLow
  | background
  deriving DecidableEq, Repr

/-- Congestion control policy (spec 4.3): block or drop on a full buffer. -/
inductive CongestionControl where
  | block
  | dropMsg
  deriving DecidableEq, Repr

/-- Default priority `Z_PRIORITY_DEFAULT` (data). -/
def priorityDefault : Priority := Priority.data

/-- Default congestion control `Z_CONGESTION_CONTROL_DEFAULT` (drop). -/
def congestionControlDefault : CongestionControl := CongestionControl.dropMsg

/-- `Session::GetOptions` (session.hxx lines 172-218): option struct of
the `get` operation; `timeout_ms` is a `uint64_t` defaulting to 0, and
"0 means default query timeout from zenoh configuration". -/
structure GetOptions where
  target : QueryTarget := QueryTarget.bestMatching
  consolidation : ConsolidationMode := ConsolidationMode.auto
  priority : Priority := priorityDefault
  congestion_control : CongestionControl := congestionControlDefault
  is_express : Bool := false
  payload : Option (List Nat) := none
  encoding : Option String := none
  attachment : Option (List Nat) := none
  timeout_ms : Nat := 0
  deriving DecidableEq, Repr

/-- `GetOptions::create_default()` returns the field defaults. -/
def GetOptions.create_default : GetOptions := {}

/-- `Session::LivelinessGetOptions` (session.hxx lines 947-957):
`timeout_ms` is a `uint32_t` defaulting to 10000. -/
structure LivelinessGetOptions where
  timeout_ms : Nat := 10000
  deriving DecidableEq, Repr

/-- `LivelinessGetOptions::create_default()` returns the field defaults. -/
def LivelinessGetOptions.create_default : LivelinessGetOptions := {}

/-- Deadline used by the engine for a `get` with the given options. -/
def getDeadline (o : GetOptions) (sessionDefault : Nat) : Nat :=
  effectiveTimeout o.timeout_ms sessionDefault

/-- Modelled from the spec: `liveliness_get` reuses the query/reply
engine's timeout machinery, so its deadline is computed by the same
`effectiveTimeout` applied to its `timeout_ms` option. -/
def livelinessGetDeadline (o : LivelinessGetOptions) (sessionDefault : Nat) : Nat :=
  effectiveTimeout o.timeout_ms sessionDefault

/-! ## Channel-based overload flow (session.hxx lines 273-298, 387-403,
492-508, 1005-1019) -/

/-- A channel handler as seen by the caller: valid, or dropped (moved
from / gravestone state). -/
structure ChannelHandler where
  valid : Bool
  deriving DecidableEq, Repr

/-- Observable outcome of a channel-based overload call. -/
structure ChannelCallResult where
  written : Option ZResult
  thrown : Option ZErr
  handler : Option ChannelHandler
  deriving DecidableEq, Repr

/-- Embeds the control flow shared by the channel-based overloads of
`get`, `declare_queryable`, `declare_subscriber` and `liveliness_get`:
the result of the underlying C call goes through `__ZENOH_RESULT_CHECK`
(writing the code to `err` when provided, otherwise throwing on
failure, in which case the function never returns a handler); then
`if (res != Z_OK) z_drop(handler)` invalidates the handler before it is
returned. -/
def channelGetFlow (res : ZResult) (errPtrProvided : Bool) : ChannelCallResult :=
  match resultCheck res errPtrProvided with
  | Report.errWritten r =>
    { written := some r, thrown := none, handler := some { valid := res == ZResult.ok } }
  | Report.exceptionThrown e =>
    { written := none, thrown := some e, handler := none }
  | Report.okNoReport =>
    { written := none, thrown := none, handler := some { valid := true } }

/-! ## Liveliness tracker (spec 4.5) -/

/-- Kind of a delivered sample. -/
inductive SampleKind where
  | put
  | delete
  deriving DecidableEq, Repr

/-- A synthetic sample emitted to a liveliness subscriber. -/
structure LivEmission where
  subId : Nat
  kind : SampleKind
  keyexpr : KeyExprT
  deriving DecidableEq, Repr

/-- Modelled from the spec: the liveliness tracker state — live tokens
and liveliness subscribers. -/
structure LivState where
  tokens : List KeyExprT
  lsubs : List SubEntry
  deriving Repr

/-- Modelled from the spec: `declare_token(key_expr)` registers a token;
every live liveliness subscriber whose key expression intersects it
receives a synthetic PUT sample immediately. -/
def liveliness_declare_token (st : LivState) (tk : KeyExprT) : LivState × List LivEmission :=
  ({ st with tokens := tk :: st.tokens },
   (st.lsubs.filter (fun sub => keyExprIntersects sub.keyexpr tk)).map
     (fun sub => { subId := sub.id, kind := SampleKind.put, keyexpr := tk }))

/-- Modelled from the spec: declaring a liveliness subscriber with
`history = true` replays a PUT sample for every already-declared token
intersecting its key expression. -/
def liveliness_declare_subscriber (st : LivState) (i : Nat) (k : KeyExprT) (history : Bool) :
    LivState × List LivEmission :=
  ({ st with lsubs := st.lsubs ++ [{ id := i, keyexpr := k }] },
   if history then
     (st.tokens.filter (fun tk => keyExprIntersects k tk)).map
       (fun tk => { subId := i, kind := SampleKind.put, keyexpr := tk })
   else [])

/-- Modelled from the spec: dropping or undeclaring a token delivers a
DELETE sample to every intersecting liveliness subscriber. -/
def liveliness_undeclare_token (st : LivState) (tk : KeyExprT) : LivState × List LivEmission :=
  ({ st with tokens := st.tokens.erase tk },
   (st.lsubs.filter (fun sub => keyExprIntersects sub.keyexpr tk)).map
     (fun sub => { subId := sub.id, kind := SampleKind.delete, keyexpr := tk }))

/-! ## Helper lemmas -/

theorem runClosure_dropped_nil (cs : List ClosureCmd) :
    runClosure cs CState.dropped = [] := by
  induction cs with
  | nil => rfl
  | cons c cs ih => cases c <;> simpa [runClosure] using ih

theorem map_bump_eq_self (l : List RegEntry) (e : KeyExprT)
    (h : ∀ x ∈ l, (x.expr == e) = false) :
    l.map (fun x => if x.expr == e then { x with rc := x.rc + 1 } else x) = l := by
  induction l with
  | nil => rfl
  | cons a l ih =>
    simp only [List.map_cons, h a (List.mem_cons_self a l), if_neg, Bool.false_eq_true,
      not_false_iff, List.cons.injEq, true_and]
    exact ih (fun x hx => h x (List.mem_cons_of_mem a hx))

theorem filterMap_undeclare_eq_self (l : List RegEntry) (i : Nat)
    (h : ∀ x ∈ l, (x.id == i) = false) :
    l.filterMap (undeclareStep i) = l := by
  induction l with
  | nil => rfl
  | cons a l ih =>
    have hstep : undeclareStep i a = some a := by
      simp [undeclareStep, h a (List.mem_cons_self a l)]
    rw [List.filterMap_cons_some hstep]
    exact congrArg (a :: ·) (ih (fun x hx => h x (List.mem_cons_of_mem a hx)))

theorem find?_id_none (l : List RegEntry) (i : Nat)
    (h : ∀ x ∈ l, (x.id == i) = false) :
    l.find? (fun ent => ent.id == i) = none :=
  List.find?_eq_none.mpr (fun x hx => by simp [h x hx])

/-! ## Claim theorems -/

/-- C5: for all valid key expressions `a` and `b`, `intersects(a, b)`
equals `intersects(b, a)` — intersection of key expressions is
symmetric. -/
theorem c5_intersects_symm (a b : KeyExprT)
    (ha : keyExprWf a = true) (hb : keyExprWf b = true) :
    keyExprIntersects a b = keyExprIntersects b a := by
  unfold keyExprIntersects
  rw [Nat.add_comm a.length b.length]
  exact interFuel_symm _ _ chunkInter_symm _ a b

/-- Witness for C5 at the concrete pair `a/*` and `**`. -/
theorem c5_witness :
    keyExprWf [Chunk.pat [Frag.flit 'a'], Chunk.star] = true ∧
    keyExprWf [Chunk.dstar] = true ∧
    keyExprIntersects [Chunk.pat [Frag.flit 'a'], Chunk.star] [Chunk.dstar] =
      keyExprIntersects [Chunk.dstar] [Chunk.pat [Frag.flit 'a'], Chunk.star] :=
  ⟨by decide, by decide, c5_intersects_symm _ _ (by decide) (by decide)⟩

/-- C1: a `put` on key `a/b` through `Session::put`, against the
subscription table built by declaring subscribers 1..6 on `a/*`, `a/**`,
`**`, `a/b`, `a/c` and `x/**`, delivers the sample exactly to
subscribers 1, 2, 3 and 4 — so to every subscriber on `a/*`, `a/**`,
`**` and `a/b`, and not to the subscribers on `a/c` or `x/**` — for
every payload. -/
theorem c1_put_fanout (payload : String) :
    (SessionModel.openDefault.declare_subscriber 1 "a/*" >>= fun s =>
     s.declare_subscriber 2 "a/**" >>= fun s =>
     s.declare_subscriber 3 "**" >>= fun s =>
     s.declare_subscriber 4 "a/b" >>= fun s =>
     s.declare_subscriber 5 "a/c" >>= fun s =>
     s.declare_subscriber 6 "x/**" >>= fun s =>
     s.put "a/b" payload) = Except.ok [1, 2, 3, 4] := rfl

/-- C2: after `close()` has returned, `declare_subscriber` on that
session fails with `SessionClosedError` and `is_closed()` returns
true. -/
theorem c2_close_gates_declares (s : SessionModel) (i : Nat) (key : String) :
    (s.close).1.declare_subscriber i key = Except.error ZErr.sessionClosedErr ∧
    (s.close).1.is_closed = true :=
  ⟨rfl, rfl⟩

/-- C3: declaring the same key expression twice returns the same numeric
id both times, and the id-to-expression mapping is still present after
the first undeclare and released only after the second one (reference
counting).  Stated for an expression not yet declared in a registry
satisfying the id-allocation invariant. -/
theorem c3_declare_keyexpr_refcount (r : Registry) (e : KeyExprT)
    (hinv : r.inv = true) (hfresh : r.declared e = false) :
    (r.declare e).2 = ((r.declare e).1.declare e).2 ∧
    (((r.declare e).1.declare e).1.undeclare (r.declare e).2).lookup (r.declare e).2 =
      some e ∧
    ((((r.declare e).1.declare e).1.undeclare (r.declare e).2).undeclare
      (r.declare e).2).lookup (r.declare e).2 = none := by
  have hfr : ∀ x ∈ r.entries, (x.expr == e) = false := by
    intro x hx
    have := List.any_eq_false.mp hfresh x hx
    simpa using this
  have hid : ∀ x ∈ r.entries, (x.id == r.next) = false := by
    intro x hx
    have hlt : x.id < r.next := by simpa using List.all_eq_true.mp hinv x hx
    simp [Nat.ne_of_lt hlt]
  have hfind : r.entries.find? (fun ent => ent.expr == e) = none :=
    List.find?_eq_none.mpr (fun x hx => by simp [hfr x hx])
  have hd1 : r.declare e =
      ({ next := r.next + 1,
         entries := { id := r.next, expr := e, rc := 1 } :: r.entries }, r.next) := by
    unfold Registry.declare
    rw [hfind]
  have hd2 : ((r.declare e).1.declare e) =
      ({ next := r.next + 1,
         entries := { id := r.next, expr := e, rc := 2 } :: r.entries }, r.next) := by
    rw [hd1]
    unfold Registry.declare
    rw [List.find?_cons_of_pos _ (by simp)]
    simp only [List.map_cons, if_pos (by simp : (e == e) = true)]
    rw [map_bump_eq_self r.entries e hfr]
  have hu1 : (((r.declare e).1.declare e).1.undeclare (r.declare e).2) =
      { next := r.next + 1,
        entries := { id := r.next, expr := e, rc := 1 } :: r.entries } := by
    rw [hd2, hd1]
    unfold Registry.undeclare
    have hstep : undeclareStep r.next { id := r.next, expr := e, rc := 2 } =
        some { id := r.next, expr := e, rc := 1 } := by
      simp [undeclareStep]
    rw [List.filterMap_cons_some hstep]
    rw [filterMap_undeclare_eq_self r.entries r.next hid]
  have hu2 : ((((r.declare e).1.declare e).1.undeclare (r.declare e).2).undeclare
      (r.declare e).2) = { next := r.next + 1, entries := r.entries } := by
    rw [hu1, hd1]
    unfold Registry.undeclare
    have hstep : undeclareStep r.next { id := r.next, expr := e, rc := 1 } = none := by
      simp [undeclareStep]
    rw [List.filterMap_cons_none hstep]
    rw [filterMap_undeclare_eq_self r.entries r.next hid]
  refine ⟨by rw [hd2, hd1], ?_, ?_⟩
  · rw [hu1, hd1]
    unfold Registry.lookup
    rw [List.find?_cons_of_pos _ (by simp)]
    rfl
  · rw [hu2, hd1]
    unfold Registry.lookup
    rw [find?_id_none r.entries r.next hid]
    rfl

/-- Witness for C3 at the empty registry and the key expression `*`. -/
theorem c3_witness :
    Registry.empty.inv = true ∧
    Registry.empty.declared [Chunk.star] = false ∧
    ((Registry.empty.declare [Chunk.star]).2 =
        ((Registry.empty.declare [Chunk.star]).1.declare [Chunk.star]).2 ∧
      (((Registry.empty.declare [Chunk.star]).1.declare [Chunk.star]).1.undeclare
          (Registry.empty.declare [Chunk.star]).2).lookup
          (Registry.empty.declare [Chunk.star]).2 = some [Chunk.star] ∧
      ((((Registry.empty.declare [Chunk.star]).1.declare [Chunk.star]).1.undeclare
          (Registry.empty.declare [Chunk.star]).2).undeclare
          (Registry.empty.declare [Chunk.star]).2).lookup
          (Registry.empty.declare [Chunk.star]).2 = none) :=
  ⟨by decide, by decide,
   c3_declare_keyexpr_refcount Registry.empty [Chunk.star] (by decide) (by decide)⟩

/-- C4: for every command sequence that destroys the entity, the
callback trace is some number of event callbacks followed by exactly one
drop callback, with nothing after it. -/
theorem c4_drop_fires_once (cmds : List ClosureCmd) (h : ClosureCmd.destroy ∈ cmds) :
    ∃ k, runClosure cmds CState.live =
      List.replicate k CbEvent.onEvent ++ [CbEvent.onClose] := by
  induction cmds with
  | nil => cases h
  | cons c cs ih =>
    cases c with
    | deliver =>
      have h' : ClosureCmd.destroy ∈ cs := by
        cases h with
        | tail _ h => exact h
      obtain ⟨k, hk⟩ := ih h'
      exact ⟨k + 1, by simp [runClosure, hk, List.replicate_succ]⟩
    | destroy =>
      exact ⟨0, by simp [runClosure, runClosure_dropped_nil]⟩

/-- Witness for C4 on the command sequence deliver-then-destroy. -/
theorem c4_witness :
    ClosureCmd.destroy ∈ [ClosureCmd.deliver, ClosureCmd.destroy] ∧
    ∃ k, runClosure [ClosureCmd.deliver, ClosureCmd.destroy] CState.live =
      List.replicate k CbEvent.onEvent ++ [CbEvent.onClose] :=
  ⟨by decide, c4_drop_fires_once _ (by decide)⟩

/-- C6: the default of `GetOptions::create_default()` is `timeout_ms = 0`;
value 0 makes the engine use the session's default query timeout; the
drop signal of a query run never fires later than the deadline; and when
queryables are still outstanding (`completionTime = none`) the drop
signal fires exactly at the deadline. -/
theorem c6_get_timeout (o : GetOptions) (sessionDefault : Nat) (replyTimes : List Nat)
    (completionTime : Option Nat) :
    GetOptions.create_default.timeout_ms = 0 ∧
    getDeadline GetOptions.create_default sessionDefault = sessionDefault ∧
    (runQuery (getDeadline o sessionDefault) replyTimes completionTime).dropTime ≤
      getDeadline o sessionDefault ∧
    (runQuery (getDeadline o sessionDefault) replyTimes none).dropTime =
      getDeadline o sessionDefault := by
  refine ⟨rfl, rfl, ?_, rfl⟩
  unfold runQuery
  cases completionTime with
  | none => simp
  | some c => simp [min_le_right]

/-- C8: `liveliness_get` computes its deadline with the same
`effectiveTimeout` machinery as `get`, so its `timeout_ms` option has
the same semantics, including value 0 meaning the session's default
query timeout. -/
theorem c8_liveliness_get_timeout (o : LivelinessGetOptions) (sessionDefault : Nat) :
    livelinessGetDeadline o sessionDefault =
      getDeadline { GetOptions.create_default with timeout_ms := o.timeout_ms } sessionDefault ∧
    livelinessGetDeadline { timeout_ms := 0 } sessionDefault = sessionDefault :=
  ⟨rfl, rfl⟩

/-- C7: declaring a liveliness token delivers a synthetic PUT sample to
every live liveliness subscriber whose key expression intersects the
token's; a subscriber declared afterwards with `history = true` also
receives that PUT sample; and undeclaring the token delivers a DELETE
sample to the same intersecting subscribers. -/
theorem c7_liveliness_samples (st : LivState) (tk : KeyExprT) (sub : SubEntry)
    (i : Nat) (k : KeyExprT) :
    (sub ∈ st.lsubs → keyExprIntersects sub.keyexpr tk = true →
      ({ subId := sub.id, kind := SampleKind.put, keyexpr := tk } : LivEmission) ∈
        (liveliness_declare_token st tk).2) ∧
    (keyExprIntersects k tk = true →
      ({ subId := i, kind := SampleKind.put, keyexpr := tk } : LivEmission) ∈
        (liveliness_declare_subscriber (liveliness_declare_token st tk).1 i k true).2) ∧
    (sub ∈ st.lsubs → keyExprIntersects sub.keyexpr tk = true →
      ({ subId := sub.id, kind := SampleKind.delete, keyexpr := tk } : LivEmission) ∈
        (liveliness_undeclare_token st tk).2) := by
  refine ⟨?_, ?_, ?_⟩
  · intro hmem hint
    simp only [liveliness_declare_token, List.mem_map, List.mem_filter]
    exact ⟨sub, ⟨hmem, hint⟩, rfl⟩
  · intro hint
    simp only [liveliness_declare_subscriber, liveliness_declare_token, if_pos,
      List.mem_map, List.mem_filter]
    exact ⟨tk, ⟨List.mem_cons_self tk st.tokens, hint⟩, rfl⟩
  · intro hmem hint
    simp only [liveliness_undeclare_token, List.mem_map, List.mem_filter]
    exact ⟨sub, ⟨hmem, hint⟩, rfl⟩

/-- Witness for C7: token `n/1`, subscriber 7 on `n/*` declared before
the token, subscriber 8 on `n/*` declared after it with history. -/
theorem c7_witness :
    ({ subId := 7, kind := SampleKind.put,
       keyexpr := [Chunk.pat [Frag.flit 'n'], Chunk.pat [Frag.flit '1']] } : LivEmission) ∈
      (liveliness_declare_token
        { tokens := [],
          lsubs := [{ id := 7, keyexpr := [Chunk.pat [Frag.flit 'n'], Chunk.star] }] }
        [Chunk.pat [Frag.flit 'n'], Chunk.pat [Frag.flit '1']]).2 ∧
    ({ subId := 8, kind := SampleKind.put,
       keyexpr := [Chunk.pat [Frag.flit 'n'], Chunk.pat [Frag.flit '1']] } : LivEmission) ∈
      (liveliness_declare_subscriber
        (liveliness_declare_token
          { tokens := [],
            lsubs := [{ id := 7, keyexpr := [Chunk.pat [Frag.flit 'n'], Chunk.star] }] }
          [Chunk.pat [Frag.flit 'n'], Chunk.pat [Frag.flit '1']]).1
        8 [Chunk.pat [Frag.flit 'n'], Chunk.star] true).2 ∧
    ({ subId := 7, kind := SampleKind.delete,
       keyexpr := [Chunk.pat [Frag.flit 'n'], Chunk.pat [Frag.flit '1']] } : LivEmission) ∈
      (liveliness_undeclare_token
        { tokens := [],
          lsubs := [{ id := 7, keyexpr := [Chunk.pat [Frag.flit 'n'], Chunk.star] }] }
        [Chunk.pat [Frag.flit 'n'], Chunk.pat [Frag.flit '1']]).2 :=
  ⟨(c7_liveliness_samples
      { tokens := [],
        lsubs := [{ id := 7, keyexpr := [Chunk.pat [Frag.flit 'n'], Chunk.star] }] }
      [Chunk.pat [Frag.flit 'n'], Chunk.pat [Frag.flit '1']]
      { id := 7, keyexpr := [Chunk.pat [Frag.flit 'n'], Chunk.star] }
      8 [Chunk.pat [Frag.flit 'n'], Chunk.star]).1 (by decide) (by decide),
   (c7_liveliness_samples
      { tokens := [],
        lsubs := [{ id := 7, keyexpr := [Chunk.pat [Frag.flit 'n'], Chunk.star] }] }
      [Chunk.pat [Frag.flit 'n'], Chunk.pat [Frag.flit '1']]
      { id := 7, keyexpr := [Chunk.pat [Frag.flit 'n'], Chunk.star] }
      8 [Chunk.pat [Frag.flit 'n'], Chunk.star]).2.1 (by decide),
   (c7_liveliness_samples
      { tokens := [],
        lsubs := [{ id := 7, keyexpr := [Chunk.pat [Frag.flit 'n'], Chunk.star] }] }
      [Chunk.pat [Frag.flit 'n'], Chunk.pat [Frag.flit '1']]
      { id := 7, keyexpr := [Chunk.pat [Frag.flit 'n'], Chunk.star] }
      8 [Chunk.pat [Frag.flit 'n'], Chunk.star]).2.2 (by decide) (by decide)⟩

/-- C9: a fallible operation never fails silently — with a non-null
`err` pointer the result code is written to it, with a null pointer an
exception carrying the error is thrown on failure; and a `get` matching
zero queryables succeeds with an empty result set rather than
failing. -/
theorem c9_no_silent_failure (res : ZResult) (p : Bool) (e : ZErr)
    (s : SessionModel) (key : String) (k : KeyExprT) :
    resultCheck res true = Report.errWritten res ∧
    (res ≠ ZResult.ok → resultCheck res p ≠ Report.okNoReport) ∧
    resultCheck (ZResult.err e) false = Report.exceptionThrown e ∧
    (s.status = SessionStatus.opened → parseKeyExpr key = some k →
      routeGet s.queryables k = [] → s.get key = Except.ok []) := by
  refine ⟨rfl, ?_, rfl, ?_⟩
  · intro hne
    cases p with
    | false =>
      cases res with
      | ok => exact absurd rfl hne
      | err e2 => simp [resultCheck]
    | true => simp [resultCheck]
  · intro hst hparse hroute
    unfold SessionModel.get
    simp [hst, hparse, hroute]

/-- Witness for C9 at a transport failure and a `get` on key `a` with no
declared queryables. -/
theorem c9_witness :
    resultCheck (ZResult.err ZErr.transportErr) true =
      Report.errWritten (ZResult.err ZErr.transportErr) ∧
    resultCheck (ZResult.err ZErr.transportErr) false ≠ Report.okNoReport ∧
    SessionModel.openDefault.get "a" = Except.ok [] :=
  ⟨(c9_no_silent_failure (ZResult.err ZErr.transportErr) false ZErr.transportErr
      SessionModel.openDefault "a" [Chunk.pat [Frag.flit 'a']]).1,
   (c9_no_silent_failure (ZResult.err ZErr.transportErr) false ZErr.transportErr
      SessionModel.openDefault "a" [Chunk.pat [Frag.flit 'a']]).2.1 (by decide),
   (c9_no_silent_failure (ZResult.err ZErr.transportErr) false ZErr.transportErr
      SessionModel.openDefault "a" [Chunk.pat [Frag.flit 'a']]).2.2.2 rfl (by decide) rfl⟩

/-- C10 counterexample: it is not the case that every failing
channel-based call returns a handler — when `err` is null the
`__ZENOH_RESULT_CHECK` inside the overload throws and no handler is
returned at all. -/
theorem c10_counterexample :
    ¬ (∀ (res : ZResult) (p : Bool), res ≠ ZResult.ok →
      ∃ h, (channelGetFlow res p).handler = some h ∧ h.valid = false) := by
  intro hcl
  obtain ⟨h, hh, _⟩ := hcl (ZResult.err ZErr.transportErr) false (by simp)
  simp [channelGetFlow, resultCheck] at hh

/-- C10 (amended): on failure with a non-null `err` the result code is
written and the handler is dropped and returned in the invalid state; on
failure with a null `err` an exception is thrown and no handler is
returned; on success the handler is returned intact. -/
theorem c10_channel_handler (res : ZResult) (p : Bool) :
    (p = true → (channelGetFlow res p).written = some res ∧
      (channelGetFlow res p).handler = some { valid := res == ZResult.ok }) ∧
    (p = false → ∀ e, res = ZResult.err e →
      (channelGetFlow res p).thrown = some e ∧ (channelGetFlow res p).handler = none) ∧
    (res = ZResult.ok → (channelGetFlow res p).handler = some { valid := true }) := by
  cases p <;> cases res <;>
    simp [channelGetFlow, resultCheck]

/-- Witness for C10 (amended) at a failing call with `err` provided and
a successful call without it. -/
theorem c10_witness :
    (channelGetFlow (ZResult.err ZErr.transportErr) true).handler = some { valid := false } ∧
    (channelGetFlow ZResult.ok false).handler = some { valid := true } :=
  ⟨((c10_channel_handler (ZResult.err ZErr.transportErr) true).1 rfl).2,
   (c10_channel_handler ZResult.ok false).2.2 rfl⟩

end Zenoh
